import Mathlib

/-!
Verification of the `fastapi-learning` repository against its
natural-language specification.

The repository is a collection of FastAPI tutorial files.  Each relevant
Python construct (route registrations, Pydantic models, path-operation
handlers, exception handlers) is shallowly embedded below as an executable
Lean definition, translated directly from the corresponding source file.
-/

namespace FastapiLearning

/-- JSON values, as produced by the handlers when FastAPI serialises their
return values.  Numbers are modelled as rationals (the repository never
performs float arithmetic; numeric literals are only stored and compared). -/
inductive Json where
  | null : Json
  | str : String → Json
  | num : ℚ → Json
  | bool : Bool → Json
  | arr : List Json → Json
  | obj : List (String × Json) → Json

/-- HTTP methods used by the route decorators in the repository. -/
inductive Method where
  | get | post | put | patch | delete
  deriving DecidableEq, Repr

/-- A registered path operation: method, route template, and the name of the
handler function bound to it by the decorator. -/
structure Route where
  method : Method
  path : String
  handler : String
  deriving DecidableEq, Repr

/-- Route table of `declare-request-example-data.py`: the four `@app.put`
registrations (lines 46, 76, 106, 164), each bound to a handler named
`update_item`. -/
def declareRequestExampleDataRoutes : List Route :=
  [⟨.put, "/v1/items/{item_id}", "update_item"⟩,
   ⟨.put, "/v2/items/{item_id}", "update_item"⟩,
   ⟨.put, "/v3/items/{item_id}", "update_item"⟩,
   ⟨.put, "/v4/items/{item_id}", "update_item"⟩]

/-- Route table of `form-data.py`: the single `@app.post("/login/")`
registration (line 24) bound to `login`. -/
def formDataRoutes : List Route :=
  [⟨.post, "/login/", "login"⟩]

/-- Route table of `backend/request-files.py`: the eleven registrations
(lines 30, 72, 179, 186, 199, 203, 222, 226, 232, 265, 271). -/
def backendRequestFilesRoutes : List Route :=
  [⟨.post, "/v1/files/", "create_file"⟩,
   ⟨.post, "/v1/uploadfile/", "create_upload_file"⟩,
   ⟨.post, "/v2/files/", "create_file"⟩,
   ⟨.post, "/v2/uploadfile/", "create_upload_file"⟩,
   ⟨.post, "/v3/files/", "create_file"⟩,
   ⟨.post, "/v3/uploadfile/", "create_upload_file"⟩,
   ⟨.post, "/v4/files/", "create_files"⟩,
   ⟨.post, "/v4/uploadfiles", "create_upload_files"⟩,
   ⟨.get, "/", "main"⟩,
   ⟨.post, "/v5/files/", "create_files"⟩,
   ⟨.post, "/v5/uploadfiles/", "create_upload_files"⟩]

/-- Route table of `backend/handling-errors.py`: the six registrations
(lines 43, 111, 169, 207, 269, 309). -/
def handlingErrorsRoutes : List Route :=
  [⟨.get, "/v1/items/{item_id}", "read_item"⟩,
   ⟨.get, "/v1/items-header/{item_id}", "read_item_header"⟩,
   ⟨.get, "/v1/unicorns/{name}", "read_unicorn"⟩,
   ⟨.get, "/v2/items/{item_id}", "read_item"⟩,
   ⟨.get, "/v3/items/{item_id}", "read_item"⟩,
   ⟨.post, "/v1/items/", "create_item"⟩]

/-- A source file of the repository: its path, whether it registers at least
one HTTP endpoint on a FastAPI application with a route decorator, and
whether it carries prose comments (docstrings or `#` comments) explaining a
framework feature. -/
structure SourceFile where
  path : String
  hasEndpoint : Bool
  hasProse : Bool
  deriving DecidableEq, Repr

/-- Inventory of the 42 Python source files of the repository, with whether
each registers at least one route-decorated handler and whether it contains
prose comments.  `pydantic-practice.py` (pure Pydantic demonstration, no
FastAPI application, no comments), `backend/dependencies-with-yield.py`
(dependency generators only, no route registration) and
`backend/practice-form-data.py` (two routes, no comments) are the
exceptions. -/
def sourceFiles : List SourceFile :=
  [⟨"body-parameters.py", true, true⟩,
   ⟨"cookie-parameters.py", true, true⟩,
   ⟨"declare-request-example-data.py", true, true⟩,
   ⟨"extra-models-reduce-duplication.py", true, true⟩,
   ⟨"extra-models.py", true, true⟩,
   ⟨"form-data.py", true, true⟩,
   ⟨"header-parameter.py", true, true⟩,
   ⟨"header-parameters.py", true, true⟩,
   ⟨"nested-body-params.py", true, true⟩,
   ⟨"path-parameter.py", true, true⟩,
   ⟨"path-parameters-and-numeric-validations.py", true, true⟩,
   ⟨"path-parameters.py", true, true⟩,
   ⟨"pydantic-practice.py", false, false⟩,
   ⟨"query-parameter.py", true, true⟩,
   ⟨"query-parameters.py", true, true⟩,
   ⟨"request-body.py", true, true⟩,
   ⟨"request-files.py", true, true⟩,
   ⟨"request-forms-and-files.py", true, true⟩,
   ⟨"response-model-return-type.py", true, true⟩,
   ⟨"response-model.py", true, true⟩,
   ⟨"response-status-code.py", true, true⟩,
   ⟨"backend/body-fields.py", true, true⟩,
   ⟨"backend/body-multiple-parameters.py", true, true⟩,
   ⟨"backend/body-nested-models.py", true, true⟩,
   ⟨"backend/body-updates.py", true, true⟩,
   ⟨"backend/classes-as-dependencies.py", true, true⟩,
   ⟨"backend/dependencies-in-path-operation-decorators.py", true, true⟩,
   ⟨"backend/dependencies-with-yield.py", false, true⟩,
   ⟨"backend/dependencies.py", true, true⟩,
   ⟨"backend/extra-data-types.py", true, true⟩,
   ⟨"backend/extra-models.py", true, true⟩,
   ⟨"backend/form-data.py", true, true⟩,
   ⟨"backend/get-current-user.py", true, true⟩,
   ⟨"backend/global-dependencies.py", true, true⟩,
   ⟨"backend/handling-errors.py", true, true⟩,
   ⟨"backend/path-operation-configuration.py", true, true⟩,
   ⟨"backend/practice-form-data.py", true, false⟩,
   ⟨"backend/query-parameters-and-string-validations.py", true, true⟩,
   ⟨"backend/request-files.py", true, true⟩,
   ⟨"backend/request-forms-and-files.py", true, true⟩,
   ⟨"backend/security-first-steps.py", true, true⟩,
   ⟨"backend/sub-dependencies.py", true, true⟩]

/-- A file satisfies the spec's per-file shape when it registers at least one
endpoint and pairs it with prose comments. -/
def pairsEndpointWithProse (f : SourceFile) : Prop :=
  f.hasEndpoint = true ∧ f.hasProse = true

instance (f : SourceFile) : Decidable (pairsEndpointWithProse f) :=
  inferInstanceAs (Decidable (_ ∧ _))

/-! ## backend/handling-errors.py -/

namespace HandlingErrors

/-- An HTTP request, as far as the embedded handlers inspect it (they never
look inside it; the field records the requested path). -/
structure Request where
  path : String
  deriving DecidableEq, Repr

/-- FastAPI's `HTTPException`: a status code, a JSON-encodable `detail`
(always a string in this file), and optional extra response headers
(FastAPI's addition over the Starlette version). -/
structure HTTPException where
  statusCode : ℕ
  detail : String
  headers : List (String × String) := []
  deriving DecidableEq, Repr

/-- The module-level `items` store of `backend/handling-errors.py`
(line 41): `{"foo": "The Foo Wrestlers"}`. -/
def items : List (String × String) :=
  [("foo", "The Foo Wrestlers")]

/-- Handler of `GET /v1/items/{item_id}` (lines 43-47): raise a 404
`HTTPException` with detail `"Item not found"` when `item_id` is not a key of
`items`, otherwise return `{"item": items[item_id]}`.  The store is passed
and returned explicitly; the Python function only reads it. -/
def read_item_v1 (itemId : String) (st : List (String × String)) :
    Except HTTPException Json × List (String × String) :=
  match st.lookup itemId with
  | none => (.error ⟨404, "Item not found", []⟩, st)
  | some v => (.ok (Json.obj [("item", Json.str v)]), st)

/-- Handler of `GET /v1/items-header/{item_id}` (lines 111-119): same as
`read_item_v1` but the 404 exception carries an `X-Error` header. -/
def read_item_header (itemId : String) (st : List (String × String)) :
    Except HTTPException Json × List (String × String) :=
  match st.lookup itemId with
  | none => (.error ⟨404, "Item not found", [("X-Error", "There goes my error")]⟩, st)
  | some v => (.ok (Json.obj [("item", Json.str v)]), st)

/-- The custom `UnicornException` of lines 158-160: carries a name. -/
structure UnicornException where
  name : String
  deriving DecidableEq, Repr

/-- Handler of `GET /v1/unicorns/{name}` (lines 169-173): raises
`UnicornException(name)` when the name is `"yolo"`, otherwise returns
`{"unicorn_name": name}`. -/
def read_unicorn (name : String) : Except UnicornException Json :=
  if name = "yolo" then .error ⟨name⟩
  else .ok (Json.obj [("unicorn_name", Json.str name)])

/-- Handler of `GET /v2/items/{item_id}` (lines 207-211): raises a 418 for
`item_id = 3`, otherwise returns `{"item_id": item_id}`. -/
def read_item_v2 (itemId : ℤ) : Except HTTPException Json :=
  if itemId = 3 then .error ⟨418, "Nope! I don't like 3.", []⟩
  else .ok (Json.obj [("item_id", Json.num itemId)])

/-- Handler of `GET /v3/items/{item_id}` (lines 269-273): identical body to
`read_item_v2`. -/
def read_item_v3 (itemId : ℤ) : Except HTTPException Json :=
  if itemId = 3 then .error ⟨418, "Nope! I don't like 3.", []⟩
  else .ok (Json.obj [("item_id", Json.num itemId)])

/-- Media type of a response: `JSONResponse` vs `PlainTextResponse`. -/
inductive Media where
  | json | text
  deriving DecidableEq, Repr

/-- A materialised HTTP response: status code, media type, content. -/
structure Response where
  status : ℕ
  media : Media
  content : Json

/-- A `RequestValidationError`: the list of validation errors (a JSON
value, as returned by `exc.errors()`), the offending request body
(`exc.body`), and the plain-text rendering produced by Python's
`str(exc)`. -/
structure RequestValidationError where
  errors : Json
  body : Json
  rendered : String

/-- Modelled from the spec: the framework's default `HTTPException` handler
(`fastapi.exception_handlers.http_exception_handler`, imported at lines
376-379 but implemented in the framework, not in this repository).  Per the
file's own prose (lines 71-97, 176-182) it returns a JSON response with the
exception's status code and body `{"detail": <detail>}`. -/
def default_http_exception_handler (_req : Request) (exc : HTTPException) : Response :=
  ⟨exc.statusCode, .json, Json.obj [("detail", Json.str exc.detail)]⟩

/-- Modelled from the spec: the framework's default `RequestValidationError`
handler (`fastapi.exception_handlers.request_validation_exception_handler`).
Per the file's own prose (lines 186-233 and 298-303, which reproduce the
default JSON error shape and its 422 status) it returns a JSON response with
status 422 and body `{"detail": exc.errors()}`. -/
def default_request_validation_exception_handler (_req : Request)
    (exc : RequestValidationError) : Response :=
  ⟨422, .json, Json.obj [("detail", exc.errors)]⟩

/-- The `unicorn_exception_handler` of lines 162-167: a custom 418 JSON
response interpolating the exception's name.  (The source omits a comma
after `status_code=418`; the intended arguments are embedded.) -/
def unicorn_exception_handler (_req : Request) (exc : UnicornException) : Response :=
  ⟨418, .json,
   Json.obj [("message",
     Json.str ("Oops! " ++ exc.name ++ " did something. There goes a rainbow..."))]⟩

/-- The first `validation_exception_handler` override of lines 203-205:
`PlainTextResponse(str(exc), status_code=400)`. -/
def validation_exception_handler_v1 (_req : Request)
    (exc : RequestValidationError) : Response :=
  ⟨400, .text, Json.str exc.rendered⟩

/-- The `http_exception_handler` override of lines 265-267:
`PlainTextResponse(str(exc.detail), status_code=exc.status_code)`.  (The
source misspells `exc` as `ext` in the status-code argument; the intended
reference is embedded.) -/
def http_exception_handler_override (_req : Request) (exc : HTTPException) : Response :=
  ⟨exc.statusCode, .text, Json.str exc.detail⟩

/-- The second `validation_exception_handler` override of lines 298-303:
a 422 JSON response echoing both the validation errors and the received
body. -/
def validation_exception_handler_v2 (_req : Request)
    (exc : RequestValidationError) : Response :=
  ⟨422, .json, Json.obj [("detail", exc.errors), ("body", exc.body)]⟩

/-- The `custom_http_exception_handler` of lines 381-384: prints a log line
and then delegates, `return await http_exception_handler(request, exc)`,
where `http_exception_handler` is the framework default imported at line
377 (shadowing the local override of line 266). -/
def custom_http_exception_handler (req : Request) (exc : HTTPException) : Response :=
  default_http_exception_handler req exc

/-- The final `validation_exception_hanlder` (sic) of lines 386-389: prints
a log line and delegates to the framework default
`request_validation_exception_handler`. -/
def validation_exception_hanlder_final (req : Request)
    (exc : RequestValidationError) : Response :=
  default_request_validation_exception_handler req exc

end HandlingErrors

/-! ## backend/body-updates.py -/

namespace BodyUpdates

/-- The `Item` model of `backend/body-updates.py` (lines 23-28): every field
optional or defaulted, so partial bodies validate.
`name`, `description`, `price` are nullable with default `None`; `tax`
defaults to `10.5`; `tags` defaults to `[]`. -/
structure Item where
  name : Option String := none
  description : Option String := none
  price : Option ℚ := none
  tax : ℚ := 10.5
  tags : List String := []
  deriving DecidableEq, Repr

/-- A JSON object for an item, as kept in the `items` store and as produced
by `item.dict(exclude_unset=True)`: each of the five keys is either absent
(`none`) or present with a value of the field's type. -/
structure ItemDict where
  name : Option (Option String) := none
  description : Option (Option String) := none
  price : Option (Option ℚ) := none
  tax : Option ℚ := none
  tags : Option (List String) := none
  deriving DecidableEq, Repr

/-- `Item(**stored_item_data)` (line 110): construct the model from a stored
dict, absent keys taking the field defaults. -/
def Item.ofDict (d : ItemDict) : Item :=
  { name := d.name.getD none,
    description := d.description.getD none,
    price := d.price.getD none,
    tax := d.tax.getD 10.5,
    tags := d.tags.getD [] }

/-- `stored_item_model.copy(update=update_data)` (line 112): a copy of the
model in which every key present in `update_data` takes the updated value
and every other field keeps the model's value. -/
def Item.copyUpdate (m : Item) (d : ItemDict) : Item :=
  { name := d.name.getD m.name,
    description := d.description.getD m.description,
    price := d.price.getD m.price,
    tax := d.tax.getD m.tax,
    tags := d.tags.getD m.tags }

/-- `jsonable_encoder(item)` (lines 43, 113): the model as a JSON dict, all
five keys present. -/
def jsonable_encoder (m : Item) : ItemDict :=
  { name := some m.name,
    description := some m.description,
    price := some m.price,
    tax := some m.tax,
    tags := some m.tags }

/-- The module-level `items` store: a Python dict from item id to stored
JSON object, modelled as an association list (insertion order preserved,
keys unique). -/
def Store := List (String × ItemDict)

instance : DecidableEq Store := inferInstanceAs (DecidableEq (List (String × ItemDict)))

/-- `items[item_id] = v`: replace the value at an existing key in place, or
append a new binding at the end (Python dict assignment). -/
def Store.set (st : Store) (k : String) (v : ItemDict) : Store :=
  match st with
  | [] => [(k, v)]
  | (k', v') :: rest =>
      if k' = k then (k, v) :: rest else (k', v') :: Store.set rest k v

/-- `items.lookup`. -/
def Store.lookup (st : Store) (k : String) : Option ItemDict :=
  List.lookup k st

/-- The initial module-level `items` dict of lines 31-35. -/
def itemsInit : Store :=
  [("foo", { name := some (some "Foo"), price := some (some 50.2) }),
   ("bar", { name := some (some "Bar"), description := some (some "The bartenders"),
             price := some (some 62), tax := some 20.2 }),
   ("baz", { name := some (some "Baz"), description := some none,
             price := some (some 50.2), tax := some 10.5, tags := some [] })]

/-- Handler of `GET /items/{item_id}` (lines 37-39): `return items[item_id]`
(`none` models the `KeyError` on a missing id).  The store is only read. -/
def read_item (itemId : String) (st : Store) : Option ItemDict × Store :=
  (st.lookup itemId, st)

/-- Handler of `PUT /items/{item_id}` (lines 41-45): encode the parsed body,
store it under `item_id` (a module-level write), and return it. -/
def update_item_put (itemId : String) (item : Item) (st : Store) : ItemDict × Store :=
  let updateItemEncoded := jsonable_encoder item
  (updateItemEncoded, st.set itemId updateItemEncoded)

/-- Handler of `PATCH /items/{item_id}` (lines 107-114).  The request body
arrives as the partial dict `body` (exactly what
`item.dict(exclude_unset=True)` recovers at line 111); the parsed model
`item` is `Item.ofDict body`.  The handler reads the stored dict
(`KeyError`, i.e. `none`, on a missing id), merges, stores the encoded
merge, and returns the merged model. -/
def update_item_patch (itemId : String) (body : ItemDict) (st : Store) :
    Option (Item × Store) :=
  match st.lookup itemId with
  | none => none
  | some storedItemData =>
      let storedItemModel := Item.ofDict storedItemData
      let updateData := body
      let updatedItem := storedItemModel.copyUpdate updateData
      some (updatedItem, st.set itemId (jsonable_encoder updatedItem))

end BodyUpdates

/-! ## form-data.py, backend/form-data.py and backend/request-files.py handlers -/

namespace FormData

/-- Handler of `POST /login/` in `form-data.py` (lines 24-26): receives
`username` and `password` as form fields and returns `{"username": username}`. -/
def login (username : String) (password : String) : Json :=
  Json.obj [("username", Json.str username)]

end FormData

namespace BackendFormData

/-- Handler of `POST /login/` in `backend/form-data.py` (lines 52-54):
identical body, `Annotated` parameter style. -/
def login (username : String) (password : String) : Json :=
  Json.obj [("username", Json.str username)]

end BackendFormData

namespace BackendRequestFiles

/-- An uploaded file as the handlers see it: original filename and raw
contents. -/
structure UploadFile where
  filename : String
  contents : List ℕ
  deriving DecidableEq, Repr

/-- Handler of `POST /v1/files/` in `backend/request-files.py` (lines
30-32): returns `{"file_size": len(file)}` for a `bytes` body. -/
def create_file (file : List ℕ) : Json :=
  Json.obj [("file_size", Json.num file.length)]

/-- Handler of `POST /v1/uploadfile/` in `backend/request-files.py` (lines
72-74): returns `{"filename": file.filename}`. -/
def create_upload_file (file : UploadFile) : Json :=
  Json.obj [("filename", Json.str file.filename)]

end BackendRequestFiles

/-! ## backend/body-fields.py: the Item model with Field constraints -/

namespace BodyFields

/-- The `Item` model of `backend/body-fields.py` (lines 30-34):
`name: str`, `description` nullable with `Field(max_length=300)`,
`price: float` with `Field(gt=0)`, `tax` nullable. -/
structure Item where
  name : String
  description : Option String := none
  price : ℚ
  tax : Option ℚ := none
  deriving DecidableEq, Repr

/-- The validity predicate Pydantic enforces for `Item`, read off the two
`Field` declarations: the description, when present, is at most 300
characters, and the price is strictly greater than 0.  (`name` and `tax`
carry no constraints.) -/
def Item.valid (i : Item) : Prop :=
  (∀ d, i.description = some d → d.length ≤ 300) ∧ 0 < i.price

instance (i : Item) : Decidable i.valid := by
  unfold Item.valid
  cases h : i.description <;> exact inferInstance

end BodyFields

/-! ## Inventory of the repository's data-model class definitions -/

/-- Kinds of members a Pydantic model class body can contain. -/
inductive MemberKind where
  | field       -- a typed field declaration
  | configClass -- an inner `class Config` (schema metadata only)
  | method      -- a `def` (none occur in the model classes)
  deriving DecidableEq, Repr

/-- A Pydantic model class definition: defining file, class name, and its
members in source order. -/
structure ClassDef where
  file : String
  name : String
  members : List (String × MemberKind)
  deriving DecidableEq, Repr

/-- Every class named `Item`, `User`, `Offer` or `Image` defined in the
repository, with its members transcribed from the source. -/
def modelClasses : List ClassDef :=
  [⟨"body-parameters.py", "User",
    [("username", .field), ("full_name", .field)]⟩,
   ⟨"body-parameters.py", "Item",
    [("name", .field), ("description", .field), ("price", .field), ("tax", .field)]⟩,
   ⟨"body-parameters.py", "Image",
    [("url", .field), ("name", .field)]⟩,
   ⟨"declare-request-example-data.py", "Item",
    [("name", .field), ("description", .field), ("price", .field), ("tax", .field),
     ("Config", .configClass)]⟩,
   ⟨"extra-models-reduce-duplication.py", "Item",
    [("name", .field), ("description", .field)]⟩,
   ⟨"nested-body-params.py", "Image",
    [("url", .field), ("name", .field)]⟩,
   ⟨"nested-body-params.py", "Item",
    [("name", .field), ("description", .field), ("price", .field), ("tax", .field),
     ("tags", .field), ("images", .field)]⟩,
   ⟨"nested-body-params.py", "Offer",
    [("name", .field), ("description", .field), ("price", .field), ("items", .field)]⟩,
   ⟨"path-parameter.py", "Item",
    [("name", .field), ("description", .field), ("price", .field), ("tax", .field)]⟩,
   ⟨"query-parameter.py", "Item",
    [("name", .field), ("description", .field), ("price", .field), ("tax", .field)]⟩,
   ⟨"request-body.py", "Item",
    [("name", .field), ("description", .field), ("price", .field), ("tax", .field)]⟩,
   ⟨"response-model-return-type.py", "Item",
    [("name", .field), ("description", .field), ("price", .field), ("tax", .field),
     ("tags", .field)]⟩,
   ⟨"response-model.py", "Item",
    [("name", .field), ("description", .field), ("price", .field), ("tax", .field),
     ("tags", .field)]⟩,
   ⟨"backend/body-fields.py", "Item",
    [("name", .field), ("description", .field), ("price", .field), ("tax", .field)]⟩,
   ⟨"backend/body-multiple-parameters.py", "Item",
    [("name", .field), ("description", .field), ("price", .field), ("tax", .field)]⟩,
   ⟨"backend/body-multiple-parameters.py", "User",
    [("username", .field), ("full_name", .field)]⟩,
   ⟨"backend/body-nested-models.py", "Item",
    [("name", .field), ("description", .field), ("price", .field), ("tax", .field),
     ("tags", .field)]⟩,
   ⟨"backend/body-nested-models.py", "Image",
    [("url", .field), ("name", .field)]⟩,
   ⟨"backend/body-nested-models.py", "Offer",
    [("name", .field), ("description", .field), ("price", .field), ("item", .field)]⟩,
   ⟨"backend/body-updates.py", "Item",
    [("name", .field), ("description", .field), ("price", .field), ("tax", .field),
     ("tags", .field)]⟩,
   ⟨"backend/extra-models.py", "Item",
    [("name", .field), ("description", .field)]⟩,
   ⟨"backend/get-current-user.py", "User",
    [("username", .field), ("email", .field), ("full_name", .field),
     ("disabled", .field)]⟩,
   ⟨"backend/handling-errors.py", "Item",
    [("title", .field), ("size", .field)]⟩,
   ⟨"backend/path-operation-configuration.py", "Item",
    [("name", .field), ("description", .field), ("price", .field), ("tax", .field),
     ("tags", .field)]⟩]

/-! ## Inventory of the validation constraints declared by model classes -/

/-- A validation constraint attached to a Pydantic model, as declared in the
source.  All constructors but `relating` constrain a single named field;
`relating` stands for a validator relating several fields (no model of the
repository declares one). -/
inductive FieldConstraint where
  | strLenAtMost (field : String) (n : ℕ)     -- Field(max_length=n)
  | numGT (field : String) (bound : ℚ)        -- Field(gt=bound)
  | urlFormat (field : String)                -- field typed HttpUrl
  | emailFormat (field : String)              -- field typed EmailStr
  | strictInt (field : String)                -- field typed StrictInt
  | relating (fields : List String)           -- a cross-field validator
  deriving DecidableEq, Repr

/-- The constraints a given `FieldConstraint` kind is allowed to be, under
the spec's reading: a string-length bound. -/
def FieldConstraint.isStrLenBound : FieldConstraint → Bool
  | .strLenAtMost _ _ => true
  | _ => false

/-- A numeric bound. -/
def FieldConstraint.isNumericBound : FieldConstraint → Bool
  | .numGT _ _ => true
  | _ => false

/-- A constraint on a single field (everything but `relating`). -/
def FieldConstraint.isPerField : FieldConstraint → Bool
  | .relating _ => false
  | _ => true

/-- A model class together with the validation constraints its declaration
carries. -/
structure ModelConstraints where
  file : String
  cls : String
  constraints : List FieldConstraint
  deriving DecidableEq, Repr

/-- Every data-model class of the repository that declares at least one
validation constraint, with the constraints transcribed from its
annotations (`Field(max_length=...)`, `Field(gt=...)`, `HttpUrl`,
`EmailStr`, `StrictInt`), together with the unconstrained classes embedded
elsewhere in this file. -/
def modelConstraintInventory : List ModelConstraints :=
  [⟨"backend/body-fields.py", "Item",
    [.strLenAtMost "description" 300, .numGT "price" 0]⟩,
   ⟨"body-parameters.py", "Book",
    [.strLenAtMost "description" 300, .numGT "price" 0]⟩,
   ⟨"body-parameters.py", "Image", [.urlFormat "url"]⟩,
   ⟨"nested-body-params.py", "Image", [.urlFormat "url"]⟩,
   ⟨"backend/body-nested-models.py", "ImageTwo", [.urlFormat "url"]⟩,
   ⟨"backend/body-nested-models.py", "ImageThree", [.urlFormat "url"]⟩,
   ⟨"backend/body-nested-models.py", "ImageFour", [.urlFormat "url"]⟩,
   ⟨"backend/body-nested-models.py", "ImageFive", [.urlFormat "url"]⟩,
   ⟨"extra-models.py", "UserIn", [.emailFormat "email"]⟩,
   ⟨"extra-models.py", "UserOut", [.emailFormat "email"]⟩,
   ⟨"extra-models.py", "UserInDB", [.emailFormat "email"]⟩,
   ⟨"extra-models-reduce-duplication.py", "UserBase", [.emailFormat "email"]⟩,
   ⟨"response-model.py", "UserIn", [.emailFormat "email"]⟩,
   ⟨"response-model.py", "UserOut", [.emailFormat "email"]⟩,
   ⟨"response-model-return-type.py", "UserIn", [.emailFormat "email"]⟩,
   ⟨"response-model-return-type.py", "UserOut", [.emailFormat "email"]⟩,
   ⟨"response-model-return-type.py", "BaseUser", [.emailFormat "email"]⟩,
   ⟨"backend/extra-models.py", "UserIn", [.emailFormat "email"]⟩,
   ⟨"backend/extra-models.py", "UserOut", [.emailFormat "email"]⟩,
   ⟨"backend/extra-models.py", "UserInDB", [.emailFormat "email"]⟩,
   ⟨"backend/extra-models.py", "UserBase", [.emailFormat "email"]⟩,
   ⟨"pydantic-practice.py", "StrictIntModel", [.strictInt "strict_int"]⟩,
   ⟨"backend/body-updates.py", "Item", []⟩,
   ⟨"backend/handling-errors.py", "Item", []⟩,
   ⟨"nested-body-params.py", "Item", []⟩,
   ⟨"nested-body-params.py", "Offer", []⟩,
   ⟨"backend/get-current-user.py", "User", []⟩]

/-! ## Theorems -/

/-- C1 counterexample: `pydantic-practice.py` is a source file of the
repository, and it defines no HTTP endpoint (and carries no prose
comments), so not every source file pairs an endpoint with prose
comments. -/
theorem c1_file_without_endpoint :
    SourceFile.mk "pydantic-practice.py" false false ∈ sourceFiles ∧
    ¬ pairsEndpointWithProse (SourceFile.mk "pydantic-practice.py" false false) := by
  decide

/-- C1 (amended): every source file except `pydantic-practice.py`,
`backend/dependencies-with-yield.py` (no route registration) and
`backend/practice-form-data.py` (no prose comments) defines at least one
HTTP endpoint accompanied by prose comments about a framework feature. -/
theorem c1_every_other_file_pairs_endpoint_with_prose :
    ∀ f ∈ sourceFiles,
      f.path = "pydantic-practice.py" ∨
      f.path = "backend/dependencies-with-yield.py" ∨
      f.path = "backend/practice-form-data.py" ∨
      pairsEndpointWithProse f := by
  decide

/-- C1 witness: the amended statement evaluated at `form-data.py`. -/
theorem c1_witness :
    SourceFile.mk "form-data.py" true true ∈ sourceFiles ∧
    ((SourceFile.mk "form-data.py" true true).path = "pydantic-practice.py" ∨
    (SourceFile.mk "form-data.py" true true).path = "backend/dependencies-with-yield.py" ∨
    (SourceFile.mk "form-data.py" true true).path = "backend/practice-form-data.py" ∨
    pairsEndpointWithProse (SourceFile.mk "form-data.py" true true)) :=
  ⟨by decide,
   c1_every_other_file_pairs_endpoint_with_prose
     (SourceFile.mk "form-data.py" true true) (by decide)⟩

/-- C2: the repository registers `PUT /v1/items/{item_id}` (bound to
`update_item` in `declare-request-example-data.py`), `POST /login/` (bound
to `login` in `form-data.py`), and `POST /v1/uploadfile/` (bound to
`create_upload_file` in `backend/request-files.py`). -/
theorem c2_declared_routes_exist :
    Route.mk .put "/v1/items/{item_id}" "update_item" ∈ declareRequestExampleDataRoutes ∧
    Route.mk .post "/login/" "login" ∈ formDataRoutes ∧
    Route.mk .post "/v1/uploadfile/" "create_upload_file" ∈ backendRequestFilesRoutes := by
  decide

/-- C3 counterexample: the `PUT /items/{item_id}` handler of
`backend/body-updates.py`, run on item id `"foo"` with an all-default body
against the module-level `items` store, leaves the store changed — so
module-level state does originate in (and is mutated by) this repository. -/
theorem c3_put_mutates_module_state :
    (BodyUpdates.update_item_put "foo" {} BodyUpdates.itemsInit).2 ≠
      BodyUpdates.itemsInit := by
  intro h
  have h2 := congrArg
    (fun s => s.map (fun p : String × BodyUpdates.ItemDict => p.2.description)) h
  simp [BodyUpdates.update_item_put, BodyUpdates.itemsInit, BodyUpdates.Store.set,
        BodyUpdates.jsonable_encoder] at h2

/-- C3 (amended): handlers leave module-level state unchanged except the
`PUT` and `PATCH` handlers of `backend/body-updates.py`, which write the
encoded (merged) item into the module-level `items` store under the given
id; the `GET` handlers of `backend/body-updates.py` and
`backend/handling-errors.py` only read the store. -/
theorem c3_module_state_frame (itemId : String) (item : BodyUpdates.Item)
    (body : BodyUpdates.ItemDict) (st : BodyUpdates.Store)
    (st' : List (String × String)) (id2 : String) :
    (BodyUpdates.read_item itemId st).2 = st ∧
    (BodyUpdates.update_item_put itemId item st).2 =
      st.set itemId (BodyUpdates.jsonable_encoder item) ∧
    (match BodyUpdates.update_item_patch itemId body st with
     | none => BodyUpdates.Store.lookup st itemId = none
     | some (merged, stNew) =>
        stNew = st.set itemId (BodyUpdates.jsonable_encoder merged)) ∧
    (HandlingErrors.read_item_v1 id2 st').2 = st' ∧
    (HandlingErrors.read_item_header id2 st').2 = st' := by
  refine ⟨rfl, rfl, ?_, ?_, ?_⟩
  · unfold BodyUpdates.update_item_patch
    cases h : BodyUpdates.Store.lookup st itemId <;> simp [h]
  · unfold HandlingErrors.read_item_v1
    cases h : st'.lookup id2 <;> simp [h]
  · unfold HandlingErrors.read_item_header
    cases h : st'.lookup id2 <;> simp [h]

/-- C4 counterexample: the `validation_exception_handler` override of
`backend/handling-errors.py` lines 203-205 returns a plain-text 400
response, while the framework's default `RequestValidationError` handler
returns a JSON 422 response — at the file's own example request
(`GET /v2/items/foo`) the two responses differ, so not every handler the
repository supplies equals the corresponding framework default. -/
theorem c4_override_differs_from_default :
    HandlingErrors.validation_exception_handler_v1
        ⟨"/v2/items/foo"⟩ ⟨Json.arr [], Json.null, "1 validation error"⟩ ≠
      HandlingErrors.default_request_validation_exception_handler
        ⟨"/v2/items/foo"⟩ ⟨Json.arr [], Json.null, "1 validation error"⟩ := by
  intro h
  have hs := congrArg HandlingErrors.Response.status h
  simp [HandlingErrors.validation_exception_handler_v1,
        HandlingErrors.default_request_validation_exception_handler] at hs

/-- C4 (amended): only the final two handlers of
`backend/handling-errors.py` (`custom_http_exception_handler` and the final
`validation_exception_hanlder`) delegate to — and return exactly the
response of — the framework default handlers; the earlier overrides
(`validation_exception_handler` v1, the plain-text `http_exception_handler`,
and the body-echoing `validation_exception_handler` v2) return responses
that differ from the framework defaults on every request. -/
theorem c4_delegating_handlers_only (req : HandlingErrors.Request)
    (exc : HandlingErrors.HTTPException)
    (vexc : HandlingErrors.RequestValidationError) :
    HandlingErrors.custom_http_exception_handler req exc =
      HandlingErrors.default_http_exception_handler req exc ∧
    HandlingErrors.validation_exception_hanlder_final req vexc =
      HandlingErrors.default_request_validation_exception_handler req vexc ∧
    HandlingErrors.validation_exception_handler_v1 req vexc ≠
      HandlingErrors.default_request_validation_exception_handler req vexc ∧
    HandlingErrors.http_exception_handler_override req exc ≠
      HandlingErrors.default_http_exception_handler req exc ∧
    HandlingErrors.validation_exception_handler_v2 req vexc ≠
      HandlingErrors.default_request_validation_exception_handler req vexc := by
  refine ⟨rfl, rfl, ?_, ?_, ?_⟩
  · intro h
    have hs := congrArg HandlingErrors.Response.status h
    simp [HandlingErrors.validation_exception_handler_v1,
          HandlingErrors.default_request_validation_exception_handler] at hs
  · intro h
    have hm := congrArg HandlingErrors.Response.media h
    simp [HandlingErrors.http_exception_handler_override,
          HandlingErrors.default_http_exception_handler] at hm
  · intro h
    have hc := congrArg HandlingErrors.Response.content h
    simp [HandlingErrors.validation_exception_handler_v2,
          HandlingErrors.default_request_validation_exception_handler] at hc

/-- C5 counterexample: the `Item` class of
`declare-request-example-data.py` contains an inner `Config` class (holding
a `schema_extra` example), so it does not consist only of typed field
declarations. -/
theorem c5_item_with_config_member :
    ClassDef.mk "declare-request-example-data.py" "Item"
      [("name", .field), ("description", .field), ("price", .field), ("tax", .field),
       ("Config", .configClass)] ∈ modelClasses ∧
    ("Config", MemberKind.configClass) ∈
      (ClassDef.mk "declare-request-example-data.py" "Item"
        [("name", .field), ("description", .field), ("price", .field), ("tax", .field),
         ("Config", .configClass)]).members ∧
    MemberKind.configClass ≠ MemberKind.field := by
  decide

/-- C5 (amended): classes named `Item`, `User`, `Offer` and `Image` all
exist; none of them defines any method; and every member of every such
class is a typed field declaration, except the inner `Config` class (schema
example metadata only) of the `Item` in
`declare-request-example-data.py`. -/
theorem c5_models_are_field_only :
    (∃ c ∈ modelClasses, c.name = "Item") ∧
    (∃ c ∈ modelClasses, c.name = "User") ∧
    (∃ c ∈ modelClasses, c.name = "Offer") ∧
    (∃ c ∈ modelClasses, c.name = "Image") ∧
    (∀ c ∈ modelClasses, ∀ m ∈ c.members, m.2 ≠ MemberKind.method) ∧
    (∀ c ∈ modelClasses, ∀ m ∈ c.members,
      m.2 = MemberKind.field ∨
      (c.file = "declare-request-example-data.py" ∧ c.name = "Item" ∧
       m.1 = "Config" ∧ m.2 = MemberKind.configClass)) := by
  decide

/-- C5 witness: the no-method property evaluated at the `User` class of
`backend/get-current-user.py` and its `username` member. -/
theorem c5_witness :
    ClassDef.mk "backend/get-current-user.py" "User"
      [("username", .field), ("email", .field), ("full_name", .field),
       ("disabled", .field)] ∈ modelClasses ∧
    ("username", MemberKind.field) ∈
      (ClassDef.mk "backend/get-current-user.py" "User"
        [("username", .field), ("email", .field), ("full_name", .field),
         ("disabled", .field)]).members ∧
    ("username", MemberKind.field).2 ≠ MemberKind.method :=
  ⟨by decide, by decide,
   c5_models_are_field_only.2.2.2.2.1
     (ClassDef.mk "backend/get-current-user.py" "User"
       [("username", .field), ("email", .field), ("full_name", .field),
        ("disabled", .field)]) (by decide)
     ("username", MemberKind.field) (by decide)⟩

/-- C6 counterexample: the `Image` model of `nested-body-params.py`
declares a URL-format constraint on its `url` field (the `HttpUrl` type),
which is neither a string-length bound nor a numeric bound — so the models'
validity predicates are not built from only those two kinds of
constraint. -/
theorem c6_url_constraint_is_third_kind :
    ModelConstraints.mk "nested-body-params.py" "Image"
      [FieldConstraint.urlFormat "url"] ∈ modelConstraintInventory ∧
    FieldConstraint.urlFormat "url" ∈ [FieldConstraint.urlFormat "url"] ∧
    (FieldConstraint.urlFormat "url").isStrLenBound = false ∧
    (FieldConstraint.urlFormat "url").isNumericBound = false := by
  decide

/-- C6 (amended): every validation constraint declared by a data-model
class constrains a single field (no model relates two or more fields), and
each is a string-length bound, a numeric bound, or one of the format/strict
type constraints `HttpUrl`, `EmailStr`, `StrictInt`; for
`backend/body-fields.py`, an `Item` is valid iff its description, when
present, has length at most 300 and its price is greater than 0. -/
theorem c6_constraints_are_per_field :
    (∀ mc ∈ modelConstraintInventory, ∀ c ∈ mc.constraints, c.isPerField = true) ∧
    (∀ mc ∈ modelConstraintInventory, ∀ c ∈ mc.constraints,
      c.isStrLenBound = true ∨ c.isNumericBound = true ∨
      c = .urlFormat "url" ∨ c = .emailFormat "email" ∨ c = .strictInt "strict_int") ∧
    (∀ i : BodyFields.Item,
      i.valid ↔ ((∀ d, i.description = some d → d.length ≤ 300) ∧ 0 < i.price)) ∧
    (BodyFields.Item.mk "Foo" (some "A very nice Item") 35 none).valid ∧
    ¬ (BodyFields.Item.mk "Foo" none 0 none).valid := by
  refine ⟨by decide, by decide, fun i => Iff.rfl, by decide, by decide⟩

/-- C6 witness: the per-field property evaluated at the `price` constraint
of the `Item` in `backend/body-fields.py`. -/
theorem c6_witness :
    ModelConstraints.mk "backend/body-fields.py" "Item"
      [.strLenAtMost "description" 300, .numGT "price" 0] ∈ modelConstraintInventory ∧
    FieldConstraint.numGT "price" 0 ∈
      [FieldConstraint.strLenAtMost "description" 300, FieldConstraint.numGT "price" 0] ∧
    (FieldConstraint.numGT "price" 0).isPerField = true :=
  ⟨by decide, by decide,
   c6_constraints_are_per_field.1
     (ModelConstraints.mk "backend/body-fields.py" "Item"
       [.strLenAtMost "description" 300, .numGT "price" 0]) (by decide)
     (FieldConstraint.numGT "price" 0) (by decide)⟩

/-- C7: `backend/handling-errors.py` registers `GET` handlers for all three
version-suffixed variants `/v1/items/{item_id}`, `/v2/items/{item_id}` and
`/v3/items/{item_id}` of the same route template. -/
theorem c7_versioned_routes_exist :
    Route.mk .get "/v1/items/{item_id}" "read_item" ∈ handlingErrorsRoutes ∧
    Route.mk .get "/v2/items/{item_id}" "read_item" ∈ handlingErrorsRoutes ∧
    Route.mk .get "/v3/items/{item_id}" "read_item" ∈ handlingErrorsRoutes := by
  decide

/-- C8: the `GET /v1/items/{item_id}` handler of
`backend/handling-errors.py` raises a 404 `HTTPException` with detail
`"Item not found"` iff `item_id` is not a key of the items store; when the
key is present with value `v` it returns `{"item": v}`; and in both cases
the store is left unchanged. -/
theorem c8_read_item_v1_spec (itemId : String) (st : List (String × String)) :
    ((HandlingErrors.read_item_v1 itemId st).1 =
        .error ⟨404, "Item not found", []⟩ ↔ st.lookup itemId = none) ∧
    (∀ v, st.lookup itemId = some v →
      (HandlingErrors.read_item_v1 itemId st).1 =
        .ok (Json.obj [("item", Json.str v)])) ∧
    (HandlingErrors.read_item_v1 itemId st).2 = st := by
  unfold HandlingErrors.read_item_v1
  cases h : st.lookup itemId <;> simp

/-- C8 witness: the handler evaluated on the stored key `"foo"` of the
module-level items store. -/
theorem c8_witness :
    HandlingErrors.items.lookup "foo" = some "The Foo Wrestlers" ∧
    (HandlingErrors.read_item_v1 "foo" HandlingErrors.items).1 =
      .ok (Json.obj [("item", Json.str "The Foo Wrestlers")]) :=
  ⟨by decide,
   (c8_read_item_v1_spec "foo" HandlingErrors.items).2.1
     "The Foo Wrestlers" (by decide)⟩

/-- C9: for every stored item and every request body, the
`PATCH /items/{item_id}` handler of `backend/body-updates.py` produces a
merged item in which every field explicitly set in the request takes the
new value and every stored field not set in the request keeps its stored
value; it returns the merged item and stores its encoding under the id. -/
theorem c9_patch_partial_update (itemId : String) (body : BodyUpdates.ItemDict)
    (st : BodyUpdates.Store) (stored : BodyUpdates.ItemDict)
    (h : BodyUpdates.Store.lookup st itemId = some stored) :
    ∃ merged st',
      BodyUpdates.update_item_patch itemId body st = some (merged, st') ∧
      (∀ v, body.name = some v → merged.name = v) ∧
      (∀ v, body.description = some v → merged.description = v) ∧
      (∀ v, body.price = some v → merged.price = v) ∧
      (∀ v, body.tax = some v → merged.tax = v) ∧
      (∀ v, body.tags = some v → merged.tags = v) ∧
      (body.name = none → ∀ v, stored.name = some v → merged.name = v) ∧
      (body.description = none → ∀ v, stored.description = some v →
        merged.description = v) ∧
      (body.price = none → ∀ v, stored.price = some v → merged.price = v) ∧
      (body.tax = none → ∀ v, stored.tax = some v → merged.tax = v) ∧
      (body.tags = none → ∀ v, stored.tags = some v → merged.tags = v) ∧
      st' = st.set itemId (BodyUpdates.jsonable_encoder merged) := by
  refine ⟨(BodyUpdates.Item.ofDict stored).copyUpdate body,
    st.set itemId (BodyUpdates.jsonable_encoder
      ((BodyUpdates.Item.ofDict stored).copyUpdate body)), ?_,
    ?_, ?_, ?_, ?_, ?_, ?_, ?_, ?_, ?_, ?_, rfl⟩
  · unfold BodyUpdates.update_item_patch
    rw [h]
  all_goals
    simp only [BodyUpdates.Item.copyUpdate, BodyUpdates.Item.ofDict]
  · intro v hv; simp [hv]
  · intro v hv; simp [hv]
  · intro v hv; simp [hv]
  · intro v hv; simp [hv]
  · intro v hv; simp [hv]
  · intro hb v hv; simp [hb, hv]
  · intro hb v hv; simp [hb, hv]
  · intro hb v hv; simp [hb, hv]
  · intro hb v hv; simp [hb, hv]
  · intro hb v hv; simp [hb, hv]

/-- C9 witness: patching the stored item `"bar"` with a body that only sets
`price` to 3 (the tutorial's own example) keeps the stored name,
description and tax and updates the price. -/
theorem c9_witness :
    BodyUpdates.Store.lookup BodyUpdates.itemsInit "bar" =
      some ⟨some (some "Bar"), some (some "The bartenders"), some (some 62),
            some 20.2, none⟩ ∧
    ∃ merged st',
      BodyUpdates.update_item_patch "bar"
        ⟨none, none, some (some 3), none, none⟩ BodyUpdates.itemsInit =
        some (merged, st') ∧
      merged.price = some 3 ∧ merged.name = some "Bar" ∧
      merged.description = some "The bartenders" ∧ merged.tax = 20.2 := by
  refine ⟨by rfl, ?_⟩
  obtain ⟨m, s', hrun, _, _, hpset, _, _, hnk, hdk, _, htk, _, _⟩ :=
    c9_patch_partial_update "bar" ⟨none, none, some (some 3), none, none⟩
      BodyUpdates.itemsInit
      ⟨some (some "Bar"), some (some "The bartenders"), some (some 62),
       some 20.2, none⟩ (by rfl)
  exact ⟨m, s', hrun, hpset (some 3) rfl, hnk rfl (some "Bar") rfl,
    hdk rfl (some "The bartenders") rfl, htk rfl 20.2 rfl⟩

/-- C10: the `POST /login/` handlers of `form-data.py` and
`backend/form-data.py` return `{"username": username}` for every request,
so the response is identical for any two requests sharing a username and
never reveals the password. -/
theorem c10_login_ignores_password (u p₁ p₂ : String) :
    FormData.login u p₁ = FormData.login u p₂ ∧
    BackendFormData.login u p₁ = BackendFormData.login u p₂ ∧
    FormData.login u p₁ = Json.obj [("username", Json.str u)] ∧
    BackendFormData.login u p₁ = Json.obj [("username", Json.str u)] :=
  ⟨rfl, rfl, rfl, rfl⟩

end FastapiLearning
